import Mathlib

set_option maxRecDepth 16000

/-!
# Verification of the multi-tenant database recovery solution

Shallow embedding of the restore solution's leaf components:

* `CreateSecret` — the `create-secret` Lambda (`src/lib/lambda/create-secret/index.ts`):
  temporal credential resolution (`findSecretVersionAtTime`), recovery-point handling
  (`determineTargetTime`), and construction of the temporary secret (`handler`, step 3).
* `ExtractDDL` — the DDL extraction container script
  (`src/lib/containers/ddl-extraction/extract-ddl.sh`): schema-name transformation
  (`transform_schema_names`), statement splitting (`split_ddl`) and classification
  (`classify_and_write_statement`).
* `DdlApply` — the DDL apply container (transactional application of a DDL script).
* `Saga` — the Step Functions restore workflow, modelled from the specification
  (its JSON definition is not part of the sources embedded here).

Dates/timestamps are modelled as `Nat` (milliseconds since epoch, as produced by
JavaScript `Date.getTime()`).  External services (Secrets Manager value retrieval,
RDS snapshot lookup, ISO-date parsing) are modelled as function parameters.
-/

namespace CreateSecret

/-- The JSON payload of a database secret (interface `SecretValue` in
`src/lib/lambda/create-secret/index.ts`). -/
structure SecretValue where
  engine : String
  host : String
  dbClusterIdentifier : Option String
  dbInstanceIdentifier : Option String
  username : String
  password : String
  dbname : Option String
deriving DecidableEq, Repr

/-- One entry of `ListSecretVersionIds` (interface `SecretVersion`). -/
structure SecretVersion where
  versionId : Option String
  createdDate : Option Nat
deriving DecidableEq, Repr

/-- Sort key used by `findSecretVersionAtTime`:
`a.CreatedDate!.getTime()` (after filtering, `createdDate` is present;
`getD 0` models the non-null assertion). -/
def versionKey (v : SecretVersion) : Nat := v.createdDate.getD 0

/-- Stable insertion of a version into a list sorted ascending by creation date
(JavaScript `Array.prototype.sort` with comparator
`a.CreatedDate!.getTime() - b.CreatedDate!.getTime()` is stable). -/
def insertSorted (v : SecretVersion) : List SecretVersion → List SecretVersion
  | [] => [v]
  | w :: ws => if versionKey v ≤ versionKey w then v :: w :: ws else w :: insertSorted v ws

/-- `versionsResponse.Versions.filter(...).sort(...)`: sort ascending by creation date. -/
def sortVersions : List SecretVersion → List SecretVersion
  | [] => []
  | v :: vs => insertSorted v (sortVersions vs)

/-- The `for (const version of sortedVersions)` loop of `findSecretVersionAtTime`:
keep the latest version whose creation date is `≤ targetTime`; on the first
version that is too recent (or lacks a creation date), `break` and return the
candidate accumulated so far. -/
def selectVersionLoop (targetTime : Nat) :
    List SecretVersion → Option SecretVersion → Option SecretVersion
  | [], sel => sel
  | v :: rest, sel =>
    match v.createdDate with
    | some d =>
      if d ≤ targetTime then selectVersionLoop targetTime rest (some v) else sel
    | none => sel

/-- Error outcomes of `findSecretVersionAtTime` (the three `throw new Error(...)` sites). -/
inductive FindError where
  /-- "No secret versions found" -/
  | noVersions
  /-- "No secret version found that was active at target time ..." -/
  | noVersionAtTime
  /-- "Secret version ... does not contain string value" -/
  | noStringValue
deriving DecidableEq, Repr

/-- `findSecretVersionAtTime` (`src/lib/lambda/create-secret/index.ts:90-159`).

The Secrets Manager `GetSecretValue` call for the selected version is modelled by
`getSecretString : String → Option SecretValue` (version id ↦ parsed secret string). -/
def findSecretVersionAtTime (versions : List SecretVersion) (targetTime : Nat)
    (getSecretString : String → Option SecretValue) :
    Except FindError (SecretValue × String) :=
  if versions.isEmpty then .error .noVersions
  else
    let sortedVersions := sortVersions (versions.filter (fun v => v.createdDate.isSome))
    match selectVersionLoop targetTime sortedVersions none with
    | none => .error .noVersionAtTime
    | some selected =>
      match selected.versionId with
      | none => .error .noVersionAtTime
      | some vid =>
        match getSecretString vid with
        | none => .error .noStringValue
        | some secretValue => .ok (secretValue, vid)

/-- The Lambda event (interface `LambdaEvent`). -/
structure LambdaEvent where
  dbInstanceIdentifier : String
  host : String
  secretName : String
  restoreTime : Option String
  snapshotId : Option String
deriving DecidableEq, Repr

/-- Error outcomes of `determineTargetTime`. -/
inductive TargetTimeError where
  /-- "Invalid PITR time format: ..." -/
  | invalidPitrFormat
  /-- "Snapshot ... not found or missing creation time" -/
  | snapshotNotFound
  /-- "Either snapshotId or restoreTime must be provided" -/
  | missingRecoveryPoint
deriving DecidableEq, Repr

/-- Which recovery point produced the target time (the `source` string). -/
inductive TimeSource where
  | pitr (restoreTime : String)
  | snapshot (snapshotId : String)
deriving DecidableEq, Repr

/-- `determineTargetTime` (`src/lib/lambda/create-secret/index.ts:36-88`).

`parseDate` models `new Date(s)` / `isNaN` (returns `none` on an invalid ISO string);
`lookupSnapshotTime` models the RDS `DescribeDBSnapshots` / `DescribeDBClusterSnapshots`
calls (returns `none` when the snapshot is absent or lacks a creation time).

The code checks `event.restoreTime` first: when both fields are present, the
point-in-time path is taken and `snapshotId` is ignored. -/
def determineTargetTime (event : LambdaEvent)
    (parseDate : String → Option Nat) (lookupSnapshotTime : String → Option Nat) :
    Except TargetTimeError (Nat × TimeSource) :=
  match event.restoreTime with
  | some rt =>
    match parseDate rt with
    | none => .error .invalidPitrFormat
    | some t => .ok (t, .pitr rt)
  | none =>
    match event.snapshotId with
    | some sid =>
      match lookupSnapshotTime sid with
      | none => .error .snapshotNotFound
      | some t => .ok (t, .snapshot sid)
    | none => .error .missingRecoveryPoint

/-- Step 3 of the `handler`: `{ ...originalSecret, host, dbInstanceIdentifier }`
(`src/lib/lambda/create-secret/index.ts:184-189`). -/
def buildNewSecret (event : LambdaEvent) (originalSecret : SecretValue) : SecretValue :=
  { originalSecret with
    host := event.host
    dbInstanceIdentifier := some event.dbInstanceIdentifier }

end CreateSecret

namespace CreateSecret

/-- Sorting an already-ascending three-element version list is the identity. -/
theorem sortVersions_three (v1 v2 v3 : SecretVersion)
    (h12 : versionKey v1 ≤ versionKey v2) (h23 : versionKey v2 ≤ versionKey v3) :
    sortVersions [v1, v2, v3] = [v1, v2, v3] := by
  simp only [sortVersions, insertSorted, if_pos h12, if_pos h23]

/-- **C1** — Credential resolution selects the latest version not after the target
time: for versions with creation times `t1 < t2 < t3` and any target `T` with
`t2 ≤ T < t3`, `findSecretVersionAtTime` selects the version created at `t2`
(returning its secret value and version id); for `T < t1` it fails with the
no-credential-at-time error instead of returning a version. -/
theorem findSecretVersionAtTime_selects_latest_not_after
    (id1 id2 id3 : String) (t1 t2 t3 T : Nat)
    (h12 : t1 < t2) (h23 : t2 < t3)
    (g : String → Option SecretValue) (sv : SecretValue) (hg : g id2 = some sv) :
    (t2 ≤ T → T < t3 →
      findSecretVersionAtTime
        [⟨some id1, some t1⟩, ⟨some id2, some t2⟩, ⟨some id3, some t3⟩] T g
        = .ok (sv, id2)) ∧
    (T < t1 →
      findSecretVersionAtTime
        [⟨some id1, some t1⟩, ⟨some id2, some t2⟩, ⟨some id3, some t3⟩] T g
        = .error .noVersionAtTime) := by
  have hsort : sortVersions [(⟨some id1, some t1⟩ : SecretVersion),
      ⟨some id2, some t2⟩, ⟨some id3, some t3⟩]
      = [⟨some id1, some t1⟩, ⟨some id2, some t2⟩, ⟨some id3, some t3⟩] :=
    sortVersions_three _ _ _ (Nat.le_of_lt h12) (Nat.le_of_lt h23)
  constructor
  · intro hT2 hT3
    have hT1 : t1 ≤ T := Nat.le_of_lt (Nat.lt_of_lt_of_le h12 hT2)
    simp only [findSecretVersionAtTime, List.isEmpty_cons, List.filter, Option.isSome_some,
      hsort, selectVersionLoop, if_pos hT1, if_pos hT2, if_neg (Nat.not_le_of_lt hT3), hg]
    rfl
  · intro hT1
    simp only [findSecretVersionAtTime, List.isEmpty_cons, List.filter, Option.isSome_some,
      hsort, selectVersionLoop, if_neg (Nat.not_le_of_lt hT1)]
    rfl

/-- Witness for C1 at concrete inputs: times `1 < 3 < 5`, targets `T = 4` and `T = 0`. -/
theorem findSecretVersionAtTime_witness :
    (findSecretVersionAtTime
        [⟨some "v1", some 1⟩, ⟨some "v2", some 3⟩, ⟨some "v3", some 5⟩] 4
        (fun _ => some ⟨"postgres", "h", none, none, "u", "p", none⟩)
        = .ok (⟨"postgres", "h", none, none, "u", "p", none⟩, "v2")) ∧
    (findSecretVersionAtTime
        [⟨some "v1", some 1⟩, ⟨some "v2", some 3⟩, ⟨some "v3", some 5⟩] 0
        (fun _ => some ⟨"postgres", "h", none, none, "u", "p", none⟩)
        = .error .noVersionAtTime) := by
  have h4 := findSecretVersionAtTime_selects_latest_not_after "v1" "v2" "v3" 1 3 5 4
    (by decide) (by decide)
    (fun _ => some ⟨"postgres", "h", none, none, "u", "p", none⟩)
    ⟨"postgres", "h", none, none, "u", "p", none⟩ rfl
  have h0 := findSecretVersionAtTime_selects_latest_not_after "v1" "v2" "v3" 1 3 5 0
    (by decide) (by decide)
    (fun _ => some ⟨"postgres", "h", none, none, "u", "p", none⟩)
    ⟨"postgres", "h", none, none, "u", "p", none⟩ rfl
  exact ⟨h4.1 (by decide) (by decide), h0.2 (by decide)⟩

/-- **C4 (counterexample)** — a request with *both* recovery-point fields present is
*not* rejected: `determineTargetTime` accepts it, taking the point-in-time path
and ignoring `snapshotId`. -/
theorem determineTargetTime_accepts_both_fields :
    determineTargetTime
      ⟨"db1", "host1", "tmp-secret", some "2025-06-15T14:30:00Z", some "snap-1"⟩
      (fun _ => some 42) (fun _ => some 7)
      = .ok (42, .pitr "2025-06-15T14:30:00Z") := rfl

/-- **C4 (amended)** — recovery-point handling in `determineTargetTime`: a request
with *neither* `restoreTime` nor `snapshotId` is rejected (before any resource is
created — the error is thrown before the secret is built); a request carrying
`restoreTime` is accepted via the point-in-time path whenever the timestamp
parses, regardless of whether `snapshotId` is also present (point-in-time takes
priority; `snapshotId` is then ignored); a request with only `snapshotId` is
accepted via the snapshot path whenever the snapshot lookup yields a creation
time. -/
theorem determineTargetTime_recovery_point_handling
    (event : LambdaEvent) (parseDate lookupSnapshotTime : String → Option Nat) :
    (event.restoreTime = none → event.snapshotId = none →
      determineTargetTime event parseDate lookupSnapshotTime
        = .error .missingRecoveryPoint) ∧
    (∀ rt t, event.restoreTime = some rt → parseDate rt = some t →
      determineTargetTime event parseDate lookupSnapshotTime = .ok (t, .pitr rt)) ∧
    (∀ sid t, event.restoreTime = none → event.snapshotId = some sid →
      lookupSnapshotTime sid = some t →
      determineTargetTime event parseDate lookupSnapshotTime = .ok (t, .snapshot sid)) := by
  refine ⟨fun h1 h2 => ?_, fun rt t h1 h2 => ?_, fun sid t h1 h2 h3 => ?_⟩
  · simp [determineTargetTime, h1, h2]
  · simp [determineTargetTime, h1, h2]
  · simp [determineTargetTime, h1, h2, h3]

/-- Witness for C4 (amended) at concrete inputs. -/
theorem determineTargetTime_witness :
    (determineTargetTime ⟨"db1", "h", "s", none, none⟩
        (fun _ => some 42) (fun _ => some 7) = .error .missingRecoveryPoint) ∧
    (determineTargetTime ⟨"db1", "h", "s", some "2025-01-01T00:00:00Z", none⟩
        (fun _ => some 42) (fun _ => some 7) = .ok (42, .pitr "2025-01-01T00:00:00Z")) ∧
    (determineTargetTime ⟨"db1", "h", "s", none, some "snap-1"⟩
        (fun _ => some 42) (fun _ => some 7) = .ok (7, .snapshot "snap-1")) := by
  refine ⟨?_, ?_, ?_⟩
  · exact (determineTargetTime_recovery_point_handling _ _ _).1 rfl rfl
  · exact (determineTargetTime_recovery_point_handling _ _ _).2.1 _ 42 rfl rfl
  · exact (determineTargetTime_recovery_point_handling _ _ _).2.2 _ 7 rfl rfl rfl

/-- **C9 (counterexample)** — the temporary secret does *not* preserve every field
other than `host`: the handler also overwrites `dbInstanceIdentifier`
(`{ ...originalSecret, host, dbInstanceIdentifier }`), so a historical secret
whose `dbInstanceIdentifier` differs from the event's is changed in that field too. -/
theorem buildNewSecret_changes_dbInstanceIdentifier :
    (buildNewSecret ⟨"new-db", "clone-host", "tmp", none, none⟩
        ⟨"postgres", "old-host", none, some "old-db", "u", "p", some "d"⟩).dbInstanceIdentifier
      ≠ (⟨"postgres", "old-host", none, some "old-db", "u", "p", some "d"⟩ :
          SecretValue).dbInstanceIdentifier := by
  decide

/-- **C9 (amended)** — frame property of the temporary secret: the new secret equals
the selected historical version on every field except `host` (overwritten with the
ephemeral clone's endpoint) and `dbInstanceIdentifier` (overwritten with the clone's
instance identifier); `username`, `password`, `engine`, `dbname` and
`dbClusterIdentifier` are unchanged. -/
theorem buildNewSecret_frame (event : LambdaEvent) (originalSecret : SecretValue) :
    (buildNewSecret event originalSecret).username = originalSecret.username ∧
    (buildNewSecret event originalSecret).password = originalSecret.password ∧
    (buildNewSecret event originalSecret).engine = originalSecret.engine ∧
    (buildNewSecret event originalSecret).dbname = originalSecret.dbname ∧
    (buildNewSecret event originalSecret).dbClusterIdentifier
      = originalSecret.dbClusterIdentifier ∧
    (buildNewSecret event originalSecret).host = event.host ∧
    (buildNewSecret event originalSecret).dbInstanceIdentifier
      = some event.dbInstanceIdentifier :=
  ⟨rfl, rfl, rfl, rfl, rfl, rfl, rfl⟩

end CreateSecret

namespace ExtractDDL

/-- Lines and statements are lists of characters (the script processes text). -/
abbrev Str := List Char

/-- Coerce a string literal to a character list. -/
def str (s : String) : Str := s.data

/-- POSIX `[[:space:]]`: space, tab, newline, carriage return, vertical tab, form feed. -/
def isSpaceChar (c : Char) : Bool :=
  c = ' ' || c = '\t' || c = '\n' || c = '\r' || c = '\x0b' || c = '\x0c'

/-- `tr '[:lower:]' '[:upper:]'` (ASCII, C locale) — `Char.toUpper` uppercases
exactly the ASCII range. -/
def upperStr (s : Str) : Str := s.map Char.toUpper

/-- A token of a POSIX extended regex as used by the script: a literal run of
characters, or `[[:space:]]+` (one or more whitespace characters). -/
inductive Tok where
  | lit (s : Str)
  | ws
deriving DecidableEq, Repr

/-- A *segment* is a `.*`-free sequence of tokens; a full pattern such as
`ALTER[[:space:]]+TABLE.*ADD[[:space:]]+CONSTRAINT.*PRIMARY[[:space:]]+KEY`
is the list of its `.*`-separated segments. -/
abbrev Seg := List Tok

/-- Literal-token helper. -/
def lit (s : String) : Tok := .lit s.data

/-- Match a segment against a prefix of `s`; on success return the remainder.
`ws` uses maximal munch (consume one mandatory whitespace character, then all
following whitespace); this is equivalent to POSIX `[[:space:]]+` here because
every token following `ws` in the script's patterns starts with a
non-whitespace character. -/
def matchSeg : Seg → Str → Option Str
  | [], s => some s
  | .lit l :: ts, s =>
    if l.isPrefixOf s then matchSeg ts (s.drop l.length) else none
  | .ws :: ts, s =>
    match s with
    | [] => none
    | c :: rest => if isSpaceChar c then matchSeg ts (rest.dropWhile isSpaceChar) else none

/-- Find the first match of a segment anywhere in `s`; return the remainder after
the match (earliest match: for the script's patterns, an occurrence needed by a
later segment always lies in the remainder of the earliest occurrence). -/
def findSeg (t : Seg) (s : Str) : Option Str :=
  match matchSeg t s with
  | some rest => some rest
  | none =>
    match s with
    | [] => none
    | _ :: cs => findSeg t cs

/-- `[[ s =~ re ]]` for an unanchored pattern given as its `.*`-separated
segments: find each segment in turn, each in the remainder of the previous one. -/
def containsSegs : List Seg → Str → Bool
  | [], _ => true
  | t :: ts, s =>
    match findSeg t s with
    | some rest => containsSegs ts rest
    | none => false

/-- `[[ s =~ ^... ]]` for a `^`-anchored, `.*`-free pattern. -/
def anchoredSeg (t : Seg) (s : Str) : Bool := (matchSeg t s).isSome

/-- `^[[:space:]]*$` — the line is empty or all whitespace. -/
def isBlankLine (l : Str) : Bool := l.all isSpaceChar

/-- `^[[:space:]]*--` — optional leading whitespace then `--`. -/
def isCommentLine (l : Str) : Bool := (str "--").isPrefixOf (l.dropWhile isSpaceChar)

/-- `\;[[:space:]]*$` — a semicolon followed only by whitespace up to end of line. -/
def endsWithSemi (l : Str) : Bool :=
  match l.reverse.dropWhile isSpaceChar with
  | ';' :: _ => true
  | _ => false

/-- `\$\$[[:space:]]*\;[[:space:]]*$` — `$$`, optional whitespace, `;`, optional
whitespace, end of line. -/
def endsWithDollarSemi (l : Str) : Bool :=
  match l.reverse.dropWhile isSpaceChar with
  | ';' :: r =>
    match r.dropWhile isSpaceChar with
    | '$' :: '$' :: _ => true
    | _ => false
  | _ => false

/-- `[[ "$line" =~ CREATE.*FUNCTION ]] || [[ "$line" =~ CREATE.*OR.*REPLACE.*FUNCTION ]]`
(the `in_function=true` trigger of `split_ddl`). -/
def isCreateFunctionLine (l : Str) : Bool :=
  containsSegs [[lit "CREATE"], [lit "FUNCTION"]] l ||
  containsSegs [[lit "CREATE"], [lit "OR"], [lit "REPLACE"], [lit "FUNCTION"]] l

/-- The loop state of `split_ddl`: the statement accumulated so far and the
`in_function` flag. -/
structure SplitState where
  currentStatement : Str
  inFunction : Bool
deriving DecidableEq, Repr

/-- One iteration of the `while IFS= read -r line` loop of `split_ddl`
(`extract-ddl.sh:229-254`): returns the next state and the completed statement,
if this line completed one. -/
def splitStep (st : SplitState) (line : Str) : SplitState × Option Str :=
  if isBlankLine line || isCommentLine line then
    ({ st with currentStatement := st.currentStatement ++ line ++ ['\n'] }, none)
  else
    let acc := st.currentStatement ++ line ++ ['\n']
    let inF := if isCreateFunctionLine line then true else st.inFunction
    if endsWithSemi line && !inF then
      (⟨[], false⟩, some acc)
    else if endsWithDollarSemi line && inF then
      (⟨[], false⟩, some acc)
    else
      (⟨acc, inF⟩, none)

/-- The full read loop of `split_ddl`, plus the trailing
`if [[ -n "$current_statement" ]]` flush (`extract-ddl.sh:256-259`). -/
def splitLines (st : SplitState) : List Str → List Str
  | [] => if st.currentStatement.isEmpty then [] else [st.currentStatement]
  | l :: ls =>
    match splitStep st l with
    | (st2, some stmt) => stmt :: splitLines st2 ls
    | (st2, none) => splitLines st2 ls

/-- `split_ddl`: cut the transformed dump (given as its lines) into statements. -/
def split_ddl (lines : List Str) : List Str := splitLines ⟨[], false⟩ lines

/-- Destination of a statement in `classify_and_write_statement`: appended to
`pre_dms_ddl.sql`, appended to `post_dms_ddl.sql`, or skipped (session
configuration). -/
inductive Dest where
  | preDms
  | postDms
  | skipped
deriving DecidableEq, Repr

/-- Result of classifying one statement: where it is written, and whether the
"Unclassified statement" warning is logged.  Classification always returns a
result — there is no failing branch in the function. -/
structure ClassifyResult where
  dest : Dest
  warned : Bool
deriving DecidableEq, Repr

/-- The skip test of `classify_and_write_statement` (`extract-ddl.sh:276-282`):
session-configuration statements.  The first three patterns run against the
uppercased statement, the blank test against the raw statement. -/
def isSessionConfig (stmt : Str) : Bool :=
  let u := upperStr stmt
  anchoredSeg [lit "SET", .ws] u ||
  anchoredSeg [lit "SELECT", .ws, lit "PG_CATALOG.SET_CONFIG"] u ||
  anchoredSeg [lit "--", .ws] u ||
  isBlankLine stmt

/-- The pre-DMS pattern list (`extract-ddl.sh:286-303`), against the uppercased
statement. -/
def matchesPreDms (u : Str) : Bool :=
  containsSegs [[lit "CREATE", .ws, lit "SCHEMA"]] u ||
  containsSegs [[lit "CREATE", .ws, lit "EXTENSION"]] u ||
  containsSegs [[lit "CREATE", .ws, lit "LANGUAGE"]] u ||
  containsSegs [[lit "CREATE", .ws, lit "TYPE"]] u ||
  containsSegs [[lit "CREATE", .ws, lit "DOMAIN"]] u ||
  containsSegs [[lit "CREATE", .ws, lit "COLLATION"]] u ||
  containsSegs [[lit "CREATE", .ws, lit "CAST"]] u ||
  containsSegs [[lit "CREATE", .ws, lit "OPERATOR"]] u ||
  containsSegs [[lit "CREATE", .ws, lit "AGGREGATE"]] u ||
  containsSegs [[lit "CREATE", .ws, lit "FUNCTION"]] u ||
  containsSegs [[lit "CREATE", .ws, lit "OR", .ws, lit "REPLACE", .ws, lit "FUNCTION"]] u ||
  containsSegs [[lit "ALTER", .ws, lit "FUNCTION"]] u ||
  containsSegs [[lit "ALTER", .ws, lit "TYPE"]] u ||
  containsSegs [[lit "ALTER", .ws, lit "DOMAIN"]] u ||
  containsSegs [[lit "CREATE", .ws, lit "SEQUENCE"]] u ||
  containsSegs [[lit "ALTER", .ws, lit "SEQUENCE"], [lit "OWNED", .ws, lit "BY"]] u ||
  containsSegs [[lit "CREATE", .ws, lit "TABLE"]] u ||
  containsSegs [[lit "ALTER", .ws, lit "TABLE"], [lit "ADD", .ws, lit "CONSTRAINT"],
    [lit "PRIMARY", .ws, lit "KEY"]] u

/-- The post-DMS pattern list (`extract-ddl.sh:308-320`), against the uppercased
statement. -/
def matchesPostDms (u : Str) : Bool :=
  containsSegs [[lit "CREATE", .ws, lit "INDEX"]] u ||
  containsSegs [[lit "CREATE", .ws, lit "UNIQUE", .ws, lit "INDEX"]] u ||
  containsSegs [[lit "ALTER", .ws, lit "TABLE"], [lit "ADD", .ws, lit "CONSTRAINT"],
    [lit "FOREIGN", .ws, lit "KEY"]] u ||
  containsSegs [[lit "ALTER", .ws, lit "TABLE"], [lit "ADD", .ws, lit "CONSTRAINT"],
    [lit "UNIQUE"]] u ||
  containsSegs [[lit "ALTER", .ws, lit "TABLE"], [lit "ADD", .ws, lit "CONSTRAINT"],
    [lit "CHECK"]] u ||
  containsSegs [[lit "CREATE", .ws, lit "VIEW"]] u ||
  containsSegs [[lit "CREATE", .ws, lit "OR", .ws, lit "REPLACE", .ws, lit "VIEW"]] u ||
  containsSegs [[lit "CREATE", .ws, lit "MATERIALIZED", .ws, lit "VIEW"]] u ||
  containsSegs [[lit "CREATE", .ws, lit "TRIGGER"]] u ||
  containsSegs [[lit "CREATE", .ws, lit "RULE"]] u ||
  containsSegs [[lit "CREATE", .ws, lit "POLICY"]] u ||
  containsSegs [[lit "ALTER", .ws, lit "TABLE"],
    [lit "ENABLE", .ws, lit "ROW", .ws, lit "LEVEL", .ws, lit "SECURITY"]] u ||
  containsSegs [[lit "ALTER", .ws, lit "TABLE"],
    [lit "DISABLE", .ws, lit "ROW", .ws, lit "LEVEL", .ws, lit "SECURITY"]] u

/-- The ownership/permission pattern list (`extract-ddl.sh:324-328`), against the
uppercased statement (also written to post-DMS). -/
def matchesOwnership (u : Str) : Bool :=
  containsSegs [[lit "COMMENT", .ws, lit "ON"]] u ||
  containsSegs [[lit "ALTER", .ws], [lit "OWNER", .ws, lit "TO"]] u ||
  containsSegs [[lit "REVOKE"]] u ||
  containsSegs [[lit "GRANT"]] u ||
  containsSegs [[lit "ALTER", .ws, lit "DEFAULT", .ws, lit "PRIVILEGES"]] u

/-- `classify_and_write_statement` (`extract-ddl.sh:271-338`): the if/elif chain,
in source order.  Unmatched statements go to post-DMS with a warning; no branch
aborts the extraction. -/
def classify_and_write_statement (stmt : Str) : ClassifyResult :=
  let u := upperStr stmt
  if isSessionConfig stmt then ⟨.skipped, false⟩
  else if matchesPreDms u then ⟨.preDms, false⟩
  else if matchesPostDms u then ⟨.postDms, false⟩
  else if matchesOwnership u then ⟨.postDms, false⟩
  else ⟨.postDms, true⟩

/-- Run the classifier over all statements, appending each to the pre-DMS or
post-DMS document as `classify_and_write_statement` does with `echo >>`. -/
def classifyAll (stmts : List Str) : List Str × List Str :=
  stmts.foldl
    (fun acc s =>
      match (classify_and_write_statement s).dest with
      | .preDms => (acc.1 ++ [s], acc.2)
      | .postDms => (acc.1, acc.2 ++ [s])
      | .skipped => acc)
    ([], [])

/-- Concatenate lines back into the text accumulated by the read loop (each line
is appended together with the newline the loop adds). -/
def joinLines : List Str → Str
  | [] => []
  | l :: ls => l ++ '\n' :: joinLines ls

/-- The destination chosen by the classifier, expressed through its recognizers
in branch order. -/
theorem dest_classify (stmt : Str) :
    (classify_and_write_statement stmt).dest =
      if isSessionConfig stmt then Dest.skipped
      else if matchesPreDms (upperStr stmt) then Dest.preDms
      else Dest.postDms := by
  unfold classify_and_write_statement
  dsimp only
  split_ifs <;> rfl

/-- Generalized-accumulator form of `classifyAll`: the two documents are the
pre-DMS and post-DMS filters of the statement sequence. -/
theorem classifyAll_go (stmts : List Str) : ∀ p q : List Str,
    stmts.foldl
      (fun acc s =>
        match (classify_and_write_statement s).dest with
        | .preDms => (acc.1 ++ [s], acc.2)
        | .postDms => (acc.1, acc.2 ++ [s])
        | .skipped => acc)
      (p, q)
    = (p ++ stmts.filter (fun t => decide ((classify_and_write_statement t).dest = Dest.preDms)),
       q ++ stmts.filter (fun t => decide ((classify_and_write_statement t).dest = Dest.postDms)))
    := by
  induction stmts with
  | nil => intro p q; simp
  | cons s rest ih =>
    intro p q
    simp only [List.foldl_cons, List.filter_cons]
    cases hd : (classify_and_write_statement s).dest with
    | preDms => simp [hd, ih]
    | postDms => simp [hd, ih]
    | skipped => simp [hd, ih]

/-- `classifyAll` produces exactly the pre-DMS and post-DMS filters. -/
theorem classifyAll_eq (stmts : List Str) :
    classifyAll stmts
    = (stmts.filter (fun t => decide ((classify_and_write_statement t).dest = Dest.preDms)),
       stmts.filter (fun t => decide ((classify_and_write_statement t).dest = Dest.postDms))) := by
  unfold classifyAll
  rw [classifyAll_go]
  simp

/-- A filter retains no copy of an element the predicate rejects. -/
theorem count_filter_neg {α} [BEq α] [LawfulBEq α] (p : α → Bool) {a : α} (l : List α)
    (h : p a = false) : (l.filter p).count a = 0 := by
  refine List.count_eq_zero.mpr fun hm => ?_
  have h2 := (List.mem_filter.mp hm).2
  rw [h] at h2
  cases h2

/-- A statement that is not session configuration is appended to exactly one of
the two documents, with multiplicity. -/
theorem classifyAll_count_not_skipped (stmts : List Str) (s : Str)
    (h : isSessionConfig s = false) :
    (classifyAll stmts).1.count s + (classifyAll stmts).2.count s = stmts.count s := by
  rw [classifyAll_eq]
  dsimp only
  by_cases hp : matchesPreDms (upperStr s) = true
  · have h1 : decide ((classify_and_write_statement s).dest = Dest.preDms) = true := by
      simp [dest_classify, h, hp]
    have h2 : decide ((classify_and_write_statement s).dest = Dest.postDms) = false := by
      simp [dest_classify, h, hp]
    rw [List.count_filter
        (p := fun t => decide ((classify_and_write_statement t).dest = Dest.preDms)) h1,
      count_filter_neg
        (fun t => decide ((classify_and_write_statement t).dest = Dest.postDms)) stmts h2]
    omega
  · have hp2 : matchesPreDms (upperStr s) = false := by simpa using hp
    have h1 : decide ((classify_and_write_statement s).dest = Dest.preDms) = false := by
      simp [dest_classify, h, hp2]
    have h2 : decide ((classify_and_write_statement s).dest = Dest.postDms) = true := by
      simp [dest_classify, h, hp2]
    rw [List.count_filter
        (p := fun t => decide ((classify_and_write_statement t).dest = Dest.postDms)) h2,
      count_filter_neg
        (fun t => decide ((classify_and_write_statement t).dest = Dest.preDms)) stmts h1]
    omega

/-- A session-configuration statement is appended to neither document. -/
theorem classifyAll_count_skipped (stmts : List Str) (s : Str)
    (h : isSessionConfig s = true) :
    (classifyAll stmts).1.count s = 0 ∧ (classifyAll stmts).2.count s = 0 := by
  rw [classifyAll_eq]
  dsimp only
  have h1 : decide ((classify_and_write_statement s).dest = Dest.preDms) = false := by
    simp [dest_classify, h]
  have h2 : decide ((classify_and_write_statement s).dest = Dest.postDms) = false := by
    simp [dest_classify, h]
  exact
    ⟨count_filter_neg
        (fun t => decide ((classify_and_write_statement t).dest = Dest.preDms)) stmts h1,
     count_filter_neg
        (fun t => decide ((classify_and_write_statement t).dest = Dest.postDms)) stmts h2⟩

/-- **C2 (counterexample)** — a `SET` statement is extracted from the dump by
`split_ddl` (it is a statement of the input) yet appears in *neither* output
document, so the claimed exactly-one partition of *all* extracted statements
fails. -/
theorem split_classify_loses_set_statement :
    split_ddl [str "SET statement_timeout = 0;"] = [str "SET statement_timeout = 0;\n"] ∧
    classifyAll [str "SET statement_timeout = 0;\n"] = ([], []) :=
  ⟨rfl, rfl⟩

/-- **C2 (amended)** — partition up to session configuration: every extracted
statement that is not a session-configuration statement (`SET …`,
`SELECT pg_catalog.set_config…`, comment, blank) is written to exactly one of
the pre-copy and post-copy documents (with multiplicity: no loss and no
duplication across the two documents); session-configuration statements are
written to neither. -/
theorem classifyAll_partition (stmts : List Str) (s : Str) :
    (isSessionConfig s = false →
      (classifyAll stmts).1.count s + (classifyAll stmts).2.count s = stmts.count s) ∧
    (isSessionConfig s = true →
      (classifyAll stmts).1.count s = 0 ∧ (classifyAll stmts).2.count s = 0) :=
  ⟨classifyAll_count_not_skipped stmts s, classifyAll_count_skipped stmts s⟩

/-- Witness for C2 (amended): a concrete `CREATE TABLE` statement ends up in
exactly one document. -/
theorem classifyAll_partition_witness :
    isSessionConfig (str "CREATE TABLE t (x integer);\n") = false ∧
    ((classifyAll [str "CREATE TABLE t (x integer);\n"]).1.count
        (str "CREATE TABLE t (x integer);\n")
      + (classifyAll [str "CREATE TABLE t (x integer);\n"]).2.count
        (str "CREATE TABLE t (x integer);\n")
      = [str "CREATE TABLE t (x integer);\n"].count (str "CREATE TABLE t (x integer);\n")) :=
  ⟨by decide,
   (classifyAll_partition [str "CREATE TABLE t (x integer);\n"]
      (str "CREATE TABLE t (x integer);\n")).1 (by decide)⟩

/-- **C10 (counterexample)** — a pure comment line whose `--` is *not* followed by
whitespace is not discarded: `split_ddl` yields it as a statement and the
classifier writes it to the post-copy document (as unclassified), so not every
pure comment line is dropped. -/
theorem classify_comment_not_discarded :
    isCommentLine (str "--custom") = true ∧
    split_ddl [str "--custom"] = [str "--custom\n"] ∧
    classifyAll [str "--custom\n"] = ([], [str "--custom\n"]) :=
  ⟨rfl, rfl, rfl⟩

/-- **C10 (amended)** — the classifier silently discards session-configuration
statements: every statement beginning with `SET` followed by whitespace, every
`SELECT pg_catalog.set_config…` call, every comment statement whose `--` is
followed by whitespace, and every empty/all-whitespace statement is written to
neither output document.  (A comment whose `--` is immediately followed by a
non-whitespace character is instead written to post-copy as unclassified.) -/
theorem classify_discards_session_configuration (stmts : List Str) (s : Str)
    (h : anchoredSeg [lit "SET", .ws] (upperStr s) = true ∨
         anchoredSeg [lit "SELECT", .ws, lit "PG_CATALOG.SET_CONFIG"] (upperStr s) = true ∨
         anchoredSeg [lit "--", .ws] (upperStr s) = true ∨
         isBlankLine s = true) :
    (classifyAll stmts).1.count s = 0 ∧ (classifyAll stmts).2.count s = 0 := by
  have hc : isSessionConfig s = true := by
    unfold isSessionConfig
    rcases h with h | h | h | h <;> simp [h]
  exact classifyAll_count_skipped stmts s hc

/-- Witness for C10 (amended): a concrete `SET` statement appears in neither
document. -/
theorem classify_discards_session_configuration_witness :
    (classifyAll [str "SET search_path = public;\n"]).1.count
        (str "SET search_path = public;\n") = 0 ∧
    (classifyAll [str "SET search_path = public;\n"]).2.count
        (str "SET search_path = public;\n") = 0 :=
  classify_discards_session_configuration [str "SET search_path = public;\n"]
    (str "SET search_path = public;\n") (Or.inl (by decide))

/-- **C6** — unclassified-statement handling: a statement matching none of the
classifier's recognizers is written to the post-copy document and flagged with
the "Unclassified statement" warning.  The classifier is a total function into
`ClassifyResult` — it has no failing branch, so an unrecognized statement never
aborts the extraction. -/
theorem classify_unclassified_to_post_warning (stmt : Str)
    (h1 : isSessionConfig stmt = false)
    (h2 : matchesPreDms (upperStr stmt) = false)
    (h3 : matchesPostDms (upperStr stmt) = false)
    (h4 : matchesOwnership (upperStr stmt) = false) :
    classify_and_write_statement stmt = ⟨Dest.postDms, true⟩ := by
  unfold classify_and_write_statement
  simp [h1, h2, h3, h4]

/-- Witness for C6: an `INSERT` statement (not DDL, unknown to the classifier)
lands in post-copy with a warning. -/
theorem classify_unclassified_witness :
    classify_and_write_statement (str "INSERT INTO customer_a1_r1.users VALUES (1);\n")
      = ⟨Dest.postDms, true⟩ :=
  classify_unclassified_to_post_warning (str "INSERT INTO customer_a1_r1.users VALUES (1);\n")
    (by decide) (by decide) (by decide) (by decide)

/-- While `in_function` is set, the read loop accumulates every line — semicolon
line endings included — until a line ending in `$$;` closes the statement. -/
theorem splitLines_inFunction (mid : List Str)
    (hmid : ∀ l ∈ mid, (isBlankLine l || isCommentLine l) = true ∨ endsWithDollarSemi l = false) :
    ∀ (acc ln : Str) (rest : List Str),
      (isBlankLine ln || isCommentLine ln) = false → endsWithDollarSemi ln = true →
      splitLines ⟨acc, true⟩ (mid ++ [ln] ++ rest)
        = (acc ++ joinLines (mid ++ [ln])) :: splitLines ⟨[], false⟩ rest := by
  induction mid with
  | nil =>
    intro acc ln rest hn1 hn2
    simp only [List.nil_append, joinLines, splitLines, splitStep, hn1, hn2, Bool.false_eq_true,
      if_false, ite_self, Bool.not_true, Bool.and_false, Bool.and_true]
    simp
  | cons l mid ih =>
    intro acc ln rest hn1 hn2
    have hmid2 : ∀ x ∈ mid,
        (isBlankLine x || isCommentLine x) = true ∨ endsWithDollarSemi x = false :=
      fun x hx => hmid x (List.mem_cons_of_mem _ hx)
    cases hbc : (isBlankLine l || isCommentLine l) with
    | true =>
      have hstep := ih hmid2 (acc ++ l ++ ['\n']) ln rest hn1 hn2
      simp only [List.cons_append, splitLines, splitStep, hbc, if_true]
      exact hstep.trans (by simp [joinLines, List.append_assoc])
    | false =>
      have hde : endsWithDollarSemi l = false := by
        rcases hmid l (List.mem_cons_self l mid) with hl | hl
        · rw [hbc] at hl; cases hl
        · exact hl
      have hstep := ih hmid2 (acc ++ l ++ ['\n']) ln rest hn1 hn2
      simp only [List.cons_append, splitLines, splitStep, hbc, Bool.false_eq_true, if_false,
        ite_self, Bool.not_true, Bool.and_false, hde, Bool.and_true]
      exact hstep.trans (by simp [joinLines, List.append_assoc])

/-- **C3 (amended)** — statement-boundary spanning for *function* definitions:
when the read loop is at a statement boundary and meets a line matching
`CREATE.*FUNCTION`, it enters `in_function` mode; every following line — even
ones ending with a semicolon — is accumulated into the same statement until the
first non-comment line ending in `$$;`, and the whole block is emitted as one
single statement.  (`CREATE PROCEDURE` definitions do not trigger this mode and
are split at internal semicolons — see the counterexample.) -/
theorem split_ddl_function_single_statement
    (acc l0 ln : Str) (mid rest : List Str)
    (h0 : (isBlankLine l0 || isCommentLine l0) = false)
    (h0f : isCreateFunctionLine l0 = true)
    (h0e : endsWithDollarSemi l0 = false)
    (hmid : ∀ l ∈ mid, (isBlankLine l || isCommentLine l) = true ∨ endsWithDollarSemi l = false)
    (hn1 : (isBlankLine ln || isCommentLine ln) = false)
    (hn2 : endsWithDollarSemi ln = true) :
    splitLines ⟨acc, false⟩ (l0 :: (mid ++ [ln] ++ rest))
      = (acc ++ joinLines (l0 :: (mid ++ [ln]))) :: splitLines ⟨[], false⟩ rest := by
  have hstep := splitLines_inFunction mid hmid (acc ++ l0 ++ ['\n']) ln rest hn1 hn2
  simp only [splitLines, splitStep, h0, Bool.false_eq_true, if_false, h0f, if_true,
    Bool.not_true, Bool.and_false, h0e]
  exact hstep.trans (by simp [joinLines, List.append_assoc])

/-- Witness for C3 (amended): a concrete `CREATE FUNCTION` with a semicolon inside
its `$$`-delimited body comes out of `split_ddl` as one single statement. -/
theorem split_ddl_function_witness :
    split_ddl [str "CREATE FUNCTION customer_a1_r1.gen() RETURNS text",
      str "    LANGUAGE plpgsql", str "    AS $$", str "BEGIN", str "    RETURN 1;",
      str "END;", str "$$;"]
      = [joinLines [str "CREATE FUNCTION customer_a1_r1.gen() RETURNS text",
          str "    LANGUAGE plpgsql", str "    AS $$", str "BEGIN", str "    RETURN 1;",
          str "END;", str "$$;"]] := by
  have h := split_ddl_function_single_statement []
    (str "CREATE FUNCTION customer_a1_r1.gen() RETURNS text") (str "$$;")
    [str "    LANGUAGE plpgsql", str "    AS $$", str "BEGIN", str "    RETURN 1;", str "END;"]
    [] (by decide) (by decide) (by decide) (by decide) (by decide) (by decide)
  simpa [split_ddl, splitLines] using h

/-- **C3 (counterexample)** — a multi-line `CREATE PROCEDURE` definition whose
`$$`-delimited body contains internal semicolons is *not* emitted as a single
statement: the splitter never enters `in_function` mode (the trigger regex is
`CREATE.*FUNCTION`), so the body is cut at each semicolon-ending line, yielding
three statements. -/
theorem split_ddl_splits_procedure :
    split_ddl [str "CREATE PROCEDURE customer_a1.cleanup_orders()", str "LANGUAGE plpgsql",
      str "AS $$", str "BEGIN", str "    DELETE FROM customer_a1.orders;", str "END;",
      str "$$;"]
    = [str
        "CREATE PROCEDURE customer_a1.cleanup_orders()\nLANGUAGE plpgsql\nAS $$\nBEGIN\n    DELETE FROM customer_a1.orders;\n",
       str "END;\n", str "$$;\n"] := rfl

/-- The statement categories named by the classification-mapping property
(spec §4.4). -/
inductive DdlCategory where
  | schemaDecl
  | extensionDecl
  | typeDecl
  | domainDecl
  | sequenceDecl
  | tableDecl
  | primaryKeyConstraint
  | secondaryIndex
  | foreignKey
  | uniqueConstraint
  | checkConstraint
  | trigger
  | view
  | rowSecurityPolicy
  | rowLevelSecurity
  | ownership
  | grantStmt
deriving DecidableEq, Repr

/-- Modelled from the spec: the document the specification assigns each category
to — schema/extension/type/domain/sequence declarations, table declarations and
primary-key constraints to pre-copy; secondary indexes, foreign keys,
non-primary-key constraints, triggers, views, row-security policies and
ownership/grant statements to post-copy. -/
def specBucket : DdlCategory → Dest
  | .schemaDecl => .preDms
  | .extensionDecl => .preDms
  | .typeDecl => .preDms
  | .domainDecl => .preDms
  | .sequenceDecl => .preDms
  | .tableDecl => .preDms
  | .primaryKeyConstraint => .preDms
  | .secondaryIndex => .postDms
  | .foreignKey => .postDms
  | .uniqueConstraint => .postDms
  | .checkConstraint => .postDms
  | .trigger => .postDms
  | .view => .postDms
  | .rowSecurityPolicy => .postDms
  | .rowLevelSecurity => .postDms
  | .ownership => .postDms
  | .grantStmt => .postDms

/-- A canonical statement of each category, in the layout `pg_dump` emits for the
demo schema (after the recovery-suffix transformation). -/
def sampleStatement : DdlCategory → Str
  | .schemaDecl => str "CREATE SCHEMA IF NOT EXISTS customer_a1_r1;\n"
  | .extensionDecl => str "CREATE EXTENSION IF NOT EXISTS \"uuid-ossp\" WITH SCHEMA public;\n"
  | .typeDecl => str "CREATE TYPE customer_a1_r1.user_status AS ENUM (\n    ACTIVE,\n    INACTIVE\n);\n"
  | .domainDecl => str "CREATE DOMAIN customer_a1_r1.email_addr AS text;\n"
  | .sequenceDecl =>
    str "CREATE SEQUENCE customer_a1_r1.user_id_seq\n    START WITH 1000\n    INCREMENT BY 1\n    CACHE 10;\n"
  | .tableDecl => str "CREATE TABLE customer_a1_r1.users (\n    id integer NOT NULL\n);\n"
  | .primaryKeyConstraint =>
    str "ALTER TABLE ONLY customer_a1_r1.users\n    ADD CONSTRAINT users_pkey PRIMARY KEY (id);\n"
  | .secondaryIndex =>
    str "CREATE INDEX idx_users_email ON customer_a1_r1.users USING btree (email);\n"
  | .foreignKey =>
    str "ALTER TABLE ONLY customer_a1_r1.orders\n    ADD CONSTRAINT orders_user_id_fkey FOREIGN KEY (user_id) REFERENCES customer_a1_r1.users(id);\n"
  | .uniqueConstraint =>
    str "ALTER TABLE ONLY customer_a1_r1.users\n    ADD CONSTRAINT users_email_key UNIQUE (email);\n"
  | .checkConstraint =>
    str "ALTER TABLE customer_a1_r1.products\n    ADD CONSTRAINT positive_price CHECK (price >= 0);\n"
  | .trigger =>
    str "CREATE TRIGGER update_users_modtime BEFORE UPDATE ON customer_a1_r1.users FOR EACH ROW EXECUTE FUNCTION customer_a1_r1.update_modified_timestamp();\n"
  | .view =>
    str "CREATE VIEW customer_a1_r1.user_stats AS\n SELECT count(*) AS total_users\n   FROM customer_a1_r1.users;\n"
  | .rowSecurityPolicy =>
    str "CREATE POLICY tenant_isolation ON customer_a1_r1.users USING (tenant_id = current_user);\n"
  | .rowLevelSecurity => str "ALTER TABLE customer_a1_r1.users ENABLE ROW LEVEL SECURITY;\n"
  | .ownership => str "ALTER TABLE customer_a1_r1.users OWNER TO postgres;\n"
  | .grantStmt => str "GRANT USAGE ON SCHEMA customer_a1_r1 TO app_user;\n"

/-- **C5** — classification category mapping: for every category listed in the
specification, the classifier places its (canonical `pg_dump`-format) statement
in the document the specification prescribes: schema, extension, type, domain
and sequence declarations, table declarations and primary-key constraints in
pre-copy; secondary indexes, foreign keys, unique and check constraints,
triggers, views, row-security policies, row-level-security toggles and
ownership/grant statements in post-copy. -/
theorem classify_category_mapping :
    ∀ c : DdlCategory,
      (classify_and_write_statement (sampleStatement c)).dest = specBucket c := by
  intro c
  cases c <;> rfl

/-- GNU sed word character (for the `\b` word boundary): `[A-Za-z0-9_]`. -/
def isWordChar (c : Char) : Bool := c.isAlphanum || c = '_'

/-- Scanner of `sed s/pat/rep/g` for a literal pattern: replace every
occurrence, scanning left to right and never rescanning replacement text.  The
fuel argument (instantiated with the line length, which bounds the number of
scan steps) makes the recursion structural. -/
def replaceAllGo (pat rep : Str) : Nat → Str → Str
  | 0, s => s
  | Nat.succ n, s =>
    match s with
    | [] => []
    | c :: cs =>
      if pat ≠ [] ∧ pat.isPrefixOf (c :: cs) = true then
        rep ++ replaceAllGo pat rep n ((c :: cs).drop pat.length)
      else
        c :: replaceAllGo pat rep n cs

/-- `sed s/pat/rep/g` for a literal pattern. -/
def replaceAll (pat rep s : Str) : Str := replaceAllGo pat rep s.length s

/-- Scanner of `sed s/\bschema\./recovery./g`: replace `schema.` when it starts
at a word boundary (start of line or after a non-word character); the scan
continues after the replaced occurrence, whose last original character is `.`
(not a word character). -/
def replaceQualifiedGo (schema recovery : Str) : Nat → Bool → Str → Str
  | 0, _, s => s
  | Nat.succ n, prevIsWord, s =>
    match s with
    | [] => []
    | c :: cs =>
      if prevIsWord = false ∧ (schema ++ ['.']).isPrefixOf (c :: cs) = true then
        recovery ++ '.' :: replaceQualifiedGo schema recovery n false
          ((c :: cs).drop (schema.length + 1))
      else
        c :: replaceQualifiedGo schema recovery n (isWordChar c) cs

/-- `sed s/\bschema\./recovery./g` from a given boundary state (line start:
`prevIsWord = false`). -/
def replaceQualified (schema recovery : Str) (prevIsWord : Bool) (s : Str) : Str :=
  replaceQualifiedGo schema recovery s.length prevIsWord s

/-- `pat` occurs as a contiguous substring of `s`. -/
def containsSub (pat : Str) : Str → Bool
  | [] => pat.isPrefixOf []
  | c :: cs => pat.isPrefixOf (c :: cs) || containsSub pat cs

/-- The four `sed -i` substitutions of `transform_schema_names`
(`extract-ddl.sh:193-196`) applied to one line, in source order. -/
def transformLineForSchema (schema suffix : Str) (line : Str) : Str :=
  let recovery := schema ++ suffix
  let l1 := replaceAll (str "CREATE SCHEMA " ++ schema ++ [';'])
    (str "CREATE SCHEMA IF NOT EXISTS " ++ recovery ++ [';']) line
  let l2 := replaceQualified schema recovery false l1
  let l3 := replaceAll (str "REFERENCES " ++ schema ++ ['.'])
    (str "REFERENCES " ++ recovery ++ ['.']) l2
  let l4 := replaceAll ('"' :: schema ++ ['"']) ('"' :: recovery ++ ['"']) l3
  l4

/-- `transform_schema_names`: the outer `for schema in "${SCHEMA_ARRAY[@]}"` loop,
each iteration rewriting every line of the dump (sed is line-oriented). -/
def transform_schema_names (schemas : List Str) (suffix : Str) (lines : List Str) :
    List Str :=
  schemas.foldl (fun ls schema => ls.map (transformLineForSchema schema suffix)) lines

/-- `isPrefixOf` as an existential decomposition. -/
theorem isPrefixOf_exists (p : Str) : ∀ s : Str, p.isPrefixOf s = true ↔ ∃ t, s = p ++ t := by
  induction p with
  | nil => intro s; simp [List.isPrefixOf]
  | cons c cp ih =>
    intro s
    cases s with
    | nil => simp [List.isPrefixOf]
    | cons d ds =>
      simp only [List.isPrefixOf, Bool.and_eq_true, beq_iff_eq, ih ds, List.cons_append,
        List.cons.injEq]
      constructor
      · rintro ⟨rfl, t, rfl⟩; exact ⟨t, rfl, rfl⟩
      · rintro ⟨t, rfl, rfl⟩; exact ⟨rfl, t, rfl⟩

/-- `containsSub` as an existential decomposition. -/
theorem containsSub_exists (pat : Str) :
    ∀ s : Str, containsSub pat s = true ↔ ∃ u v, s = u ++ pat ++ v := by
  intro s
  induction s with
  | nil =>
    simp only [containsSub, isPrefixOf_exists]
    constructor
    · rintro ⟨t, ht⟩
      exact ⟨[], t, ht⟩
    · rintro ⟨u, v, huv⟩
      have hu : u = [] := by
        cases u with
        | nil => rfl
        | cons x xs => cases huv
      subst hu
      exact ⟨v, huv⟩
  | cons c cs ih =>
    simp only [containsSub, Bool.or_eq_true, isPrefixOf_exists, ih]
    constructor
    · rintro (⟨t, ht⟩ | ⟨u, v, rfl⟩)
      · exact ⟨[], t, ht⟩
      · exact ⟨c :: u, v, rfl⟩
    · rintro ⟨u, v, huv⟩
      cases u with
      | nil => exact Or.inl ⟨v, huv⟩
      | cons x xs =>
        cases huv
        exact Or.inr ⟨xs, v, rfl⟩

/-- If the schema name does not occur in `s`, then no pattern containing the
schema name occurs in `s`. -/
theorem containsSub_around (schema a b : Str) (s : Str)
    (h : containsSub schema s = false) :
    containsSub (a ++ schema ++ b) s = false := by
  cases hc : containsSub (a ++ schema ++ b) s
  · rfl
  · exfalso
    rcases (containsSub_exists _ s).mp hc with ⟨u, v, rfl⟩
    have : containsSub schema (u ++ (a ++ schema ++ b) ++ v) = true := by
      refine (containsSub_exists _ _).mpr ⟨u ++ a, b ++ v, ?_⟩
      simp [List.append_assoc]
    rw [h] at this
    cases this

/-- The `sed s/pat/rep/g` scanner leaves a text without any occurrence of the
pattern unchanged, whatever the fuel. -/
theorem replaceAllGo_id (pat rep : Str) :
    ∀ (n : Nat) (s : Str), containsSub pat s = false → replaceAllGo pat rep n s = s := by
  intro n
  induction n with
  | zero => intro s _; rfl
  | succ n ih =>
    intro s h
    cases s with
    | nil => rfl
    | cons c cs =>
      have hor := h
      unfold containsSub at hor
      rw [Bool.or_eq_false_iff] at hor
      rw [replaceAllGo, if_neg]
      · rw [ih cs hor.2]
      · rintro ⟨-, hpre⟩
        rw [hor.1] at hpre
        cases hpre

/-- `replaceAll` leaves a line without any occurrence of the pattern unchanged. -/
theorem replaceAll_id (pat rep s : Str) (h : containsSub pat s = false) :
    replaceAll pat rep s = s :=
  replaceAllGo_id pat rep s.length s h

/-- The word-boundary scanner leaves a text without any occurrence of the schema
name unchanged, from any boundary state and fuel. -/
theorem replaceQualifiedGo_id (schema recovery : Str) :
    ∀ (n : Nat) (p : Bool) (s : Str), containsSub schema s = false →
      replaceQualifiedGo schema recovery n p s = s := by
  intro n
  induction n with
  | zero => intro p s _; rfl
  | succ n ih =>
    intro p s h
    cases s with
    | nil => rfl
    | cons c cs =>
      have hdot : containsSub (schema ++ ['.']) (c :: cs) = false := by
        have h2 := containsSub_around schema [] ['.'] (c :: cs) h
        simpa using h2
      have hor := hdot
      unfold containsSub at hor
      rw [Bool.or_eq_false_iff] at hor
      have htail : containsSub schema cs = false := by
        have hor2 := h
        unfold containsSub at hor2
        rw [Bool.or_eq_false_iff] at hor2
        exact hor2.2
      rw [replaceQualifiedGo, if_neg]
      · rw [ih (isWordChar c) cs htail]
      · rintro ⟨-, hpre⟩
        rw [hor.1] at hpre
        cases hpre

/-- `replaceQualified` leaves a line without any occurrence of the schema name
unchanged, from any boundary state. -/
theorem replaceQualified_id (schema recovery s : Str) (p : Bool)
    (h : containsSub schema s = false) :
    replaceQualified schema recovery p s = s :=
  replaceQualifiedGo_id schema recovery s.length p s h

/-- A line in which the schema name never occurs is left unchanged by all four
substitutions. -/
theorem transformLine_id (schema suffix line : Str)
    (h : containsSub schema line = false) :
    transformLineForSchema schema suffix line = line := by
  unfold transformLineForSchema
  dsimp only
  have h1 : containsSub (str "CREATE SCHEMA " ++ schema ++ [';']) line = false :=
    containsSub_around schema (str "CREATE SCHEMA ") [';'] line h
  have h3 : containsSub (str "REFERENCES " ++ schema ++ ['.']) line = false :=
    containsSub_around schema (str "REFERENCES ") ['.'] line h
  have h4 : containsSub ('"' :: schema ++ ['"']) line = false := by
    have := containsSub_around schema ['"'] ['"'] line h
    simpa using this
  rw [replaceAll_id _ _ line h1, replaceQualified_id _ _ line false h,
    replaceAll_id _ _ line h3, replaceAll_id _ _ line h4]

/-- **C7 (counterexample)** — the transformation does *not* leave all text that
does not refer to the schema unchanged: a double-quoted *column* named like the
schema (here a column `"customer_a1"` of a table in another schema) is renamed
by the quoted-identifier substitution. -/
theorem transform_renames_unrelated_quoted_identifier :
    transformLineForSchema (str "customer_a1") (str "_r1")
        (str "CREATE TABLE other.t (\"customer_a1\" text);")
      = str "CREATE TABLE other.t (\"customer_a1_r1\" text);" ∧
    transformLineForSchema (str "customer_a1") (str "_r1")
        (str "CREATE TABLE other.t (\"customer_a1\" text);")
      ≠ str "CREATE TABLE other.t (\"customer_a1\" text);" :=
  ⟨rfl, by decide⟩

/-- **C7 (amended)** — schema-identifier renaming: the transformation rewrites the
four syntactic forms — `CREATE SCHEMA schema;` declarations, word-boundary
`schema.` qualifiers (table/type/sequence references), `REFERENCES schema.`
clauses, and double-quoted `"schema"` identifiers — to the suffixed recovery
name, and leaves every line in which the schema name does not occur unchanged.
(Occurrences of `"schema"` or `schema.` that do not denote the schema are
renamed as well — see the counterexample.) -/
theorem transform_schema_names_renames (schema suffix line : Str) :
    (transformLineForSchema (str "customer_a1") (str "_r1")
        (str "CREATE SCHEMA customer_a1;")
      = str "CREATE SCHEMA IF NOT EXISTS customer_a1_r1;") ∧
    (transformLineForSchema (str "customer_a1") (str "_r1")
        (str "CREATE TABLE customer_a1.users (")
      = str "CREATE TABLE customer_a1_r1.users (") ∧
    (transformLineForSchema (str "customer_a1") (str "_r1")
        (str "    ADD CONSTRAINT orders_user_id_fkey FOREIGN KEY (user_id) REFERENCES customer_a1.users(id);")
      = str "    ADD CONSTRAINT orders_user_id_fkey FOREIGN KEY (user_id) REFERENCES customer_a1_r1.users(id);") ∧
    (transformLineForSchema (str "customer_a1") (str "_r1")
        (str "ALTER TABLE \"customer_a1\".users OWNER TO postgres;")
      = str "ALTER TABLE \"customer_a1_r1\".users OWNER TO postgres;") ∧
    (containsSub schema line = false →
      transformLineForSchema schema suffix line = line) :=
  ⟨rfl, rfl, rfl, rfl, transformLine_id schema suffix line⟩

/-- Witness for C7 (amended): a line mentioning only another schema is untouched. -/
theorem transform_schema_names_witness :
    transformLineForSchema (str "customer_a1") (str "_r1")
        (str "CREATE TABLE customer_a2.users (id integer);")
      = str "CREATE TABLE customer_a2.users (id integer);" :=
  (transform_schema_names_renames (str "customer_a1") (str "_r1")
    (str "CREATE TABLE customer_a2.users (id integer);")).2.2.2.2 (by decide)

end ExtractDDL

namespace DdlApply

/-- `applyDDLToDatabase` of the DDL-apply container: `BEGIN`, one
`client.query(ddlScript)` executing the whole script, `COMMIT`; on any error,
`ROLLBACK` and rethrow.  The database is abstract (`σ`); `runScript` is
PostgreSQL's execution of the whole script inside the transaction.  Transaction
semantics: commit publishes the script's result state, rollback restores the
pre-transaction state, so the returned state is the script result on success and
the original state on error. -/
def applyDDLToDatabase {σ E : Type} (runScript : σ → Except E σ) (db : σ) :
    Except E Unit × σ :=
  match runScript db with
  | .ok db2 => (.ok (), db2)
  | .error e => (.error e, db)

end DdlApply

namespace Saga

/-- Modelled from the spec: the destination schemas `schema_runId` a run creates
in production (the Step Functions workflow definition `restore-workflow.json` is
not among the sources embedded here). -/
def recoverySchemas (schemas : List String) (runId : String) : List String :=
  schemas.map (fun s => s ++ "_" ++ runId)

/-- Modelled from the spec: compensation on the failure path removes the
`schema_runId` destination schemas from production (§8: on a failed run the
destination schemas are rolled back/removed and zero `schema_runId` schemas
remain); all other temporary resources live outside the production database. -/
def cleanupFailed (schemas : List String) (runId : String) (prod : List String) :
    List String :=
  prod.filter (fun s => decide (s ∉ recoverySchemas schemas runId))

/-- Modelled from the spec: outcome oracle for the externally-owned phases of one
run — clone provisioning, DDL extraction, whether each DDL script executes
without error, and the joined migration units' aggregate result. -/
structure SagaEnv (E : Type) where
  provision : Except E Unit
  extract : Except E Unit
  preCopyScript : Except E Unit
  migrate : Except E Unit
  postCopyScript : Except E Unit

/-- Terminal state of a run. -/
inductive SagaResult (E : Type) where
  | succeeded
  | failed (e : E)
deriving DecidableEq, Repr

/-- Modelled from the spec: the restore saga's effect on the production
database's schema list (§4.1).  Phases run in order; any phase error routes
through compensation (`cleanupFailed`) before the `Failed` terminal state.  The
two production mutations go through the DDL-apply container embedded above:
pre-copy creates the suffixed destination schemas, post-copy adds structure
inside them and creates no schema. -/
def runSaga {E : Type} (env : SagaEnv E) (schemas : List String) (runId : String)
    (prod : List String) : SagaResult E × List String :=
  match env.provision with
  | .error e => (.failed e, cleanupFailed schemas runId prod)
  | .ok _ =>
    match env.extract with
    | .error e => (.failed e, cleanupFailed schemas runId prod)
    | .ok _ =>
      match DdlApply.applyDDLToDatabase
          (fun p => env.preCopyScript.map (fun _ => p ++ recoverySchemas schemas runId))
          prod with
      | (.error e, p1) => (.failed e, cleanupFailed schemas runId p1)
      | (.ok _, p1) =>
        match env.migrate with
        | .error e => (.failed e, cleanupFailed schemas runId p1)
        | .ok _ =>
          match DdlApply.applyDDLToDatabase
              (fun p => env.postCopyScript.map (fun _ => p)) p1 with
          | (.error e, p2) => (.failed e, cleanupFailed schemas runId p2)
          | (.ok _, p2) => (.succeeded, p2)

/-- **C8** — failure leaves production unchanged: for every run whose terminal
state is `Failed`, the production schema list is exactly what it was before the
run (zero `schema_runId` schemas remain, given the run id is fresh); every
successful run adds exactly `|schemas|` schemas named `schema_runId`; and the
DDL-apply step contributes to this by running the whole script in one
transaction whose state is unchanged whenever the script errors. -/
theorem saga_failure_leaves_production_unchanged {E : Type}
    (env : SagaEnv E) (schemas : List String) (runId : String) (prod : List String)
    (hfresh : ∀ s ∈ prod, s ∉ recoverySchemas schemas runId) :
    (∀ e : E, (runSaga env schemas runId prod).1 = .failed e →
      (runSaga env schemas runId prod).2 = prod) ∧
    ((runSaga env schemas runId prod).1 = .succeeded →
      (runSaga env schemas runId prod).2 = prod ++ recoverySchemas schemas runId ∧
      (runSaga env schemas runId prod).2.length = prod.length + schemas.length) ∧
    (∀ (σ : Type) (runScript : σ → Except E σ) (db : σ) (e : E),
      (DdlApply.applyDDLToDatabase runScript db).1 = .error e →
      (DdlApply.applyDDLToDatabase runScript db).2 = db) := by
  have happly : ∀ (σ : Type) (runScript : σ → Except E σ) (db : σ) (e : E),
      (DdlApply.applyDDLToDatabase runScript db).1 = .error e →
      (DdlApply.applyDDLToDatabase runScript db).2 = db := by
    intro σ rs db e h
    unfold DdlApply.applyDDLToDatabase at h ⊢
    cases hrs : rs db
    · simp [hrs]
    · rw [hrs] at h
      cases h
  have hclean : cleanupFailed schemas runId prod = prod := by
    unfold cleanupFailed
    refine List.filter_eq_self.mpr ?_
    intro s hs
    simpa using hfresh s hs
  have hcleanApp :
      cleanupFailed schemas runId (prod ++ recoverySchemas schemas runId) = prod := by
    unfold cleanupFailed
    rw [List.filter_append]
    have h1 : prod.filter (fun s => decide (s ∉ recoverySchemas schemas runId)) = prod := by
      refine List.filter_eq_self.mpr ?_
      intro s hs
      simpa using hfresh s hs
    have h2 : (recoverySchemas schemas runId).filter
        (fun s => decide (s ∉ recoverySchemas schemas runId)) = [] := by
      refine List.filter_eq_nil_iff.mpr ?_
      intro s hs
      simp [hs]
    rw [h1, h2, List.append_nil]
  have hrun : (∃ e : E, runSaga env schemas runId prod = (.failed e, prod)) ∨
      runSaga env schemas runId prod = (.succeeded, prod ++ recoverySchemas schemas runId) := by
    cases hprov : env.provision with
    | error e => exact Or.inl ⟨e, by simp [runSaga, hprov, hclean]⟩
    | ok u =>
      cases hext : env.extract with
      | error e => exact Or.inl ⟨e, by simp [runSaga, hprov, hext, hclean]⟩
      | ok u2 =>
        cases hpre : env.preCopyScript with
        | error e =>
          exact Or.inl ⟨e, by
            simp [runSaga, hprov, hext, hpre, DdlApply.applyDDLToDatabase, Except.map, hclean]⟩
        | ok u3 =>
          cases hmig : env.migrate with
          | error e =>
            exact Or.inl ⟨e, by
              simp [runSaga, hprov, hext, hpre, hmig, DdlApply.applyDDLToDatabase, Except.map,
                hcleanApp]⟩
          | ok u4 =>
            cases hpost : env.postCopyScript with
            | error e =>
              exact Or.inl ⟨e, by
                simp [runSaga, hprov, hext, hpre, hmig, hpost, DdlApply.applyDDLToDatabase,
                  Except.map, hcleanApp]⟩
            | ok u5 =>
              exact Or.inr (by
                simp [runSaga, hprov, hext, hpre, hmig, hpost, DdlApply.applyDDLToDatabase,
                  Except.map])
  refine ⟨?_, ?_, happly⟩
  · intro e he
    rcases hrun with ⟨e2, hq⟩ | hq
    · rw [hq]
    · rw [hq] at he
      cases he
  · intro hs
    rcases hrun with ⟨e2, hq⟩ | hq
    · rw [hq] at hs
      cases hs
    · rw [hq]
      refine ⟨rfl, ?_⟩
      simp [recoverySchemas]

/-- Witness for C8: a run that fails at migration leaves the two production
schemas exactly as they were; the same run with all phases succeeding adds
exactly one `customer_a1_r1` schema; a failing script leaves the DDL-apply
transaction's database state unchanged. -/
theorem saga_failure_witness :
    (runSaga (⟨.ok (), .ok (), .ok (), .error "MigrationError", .ok ()⟩ : SagaEnv String)
        ["customer_a1"] "r1" ["customer_a1", "other"]).2 = ["customer_a1", "other"] ∧
    (runSaga (⟨.ok (), .ok (), .ok (), .ok (), .ok ()⟩ : SagaEnv String)
        ["customer_a1"] "r1" ["customer_a1", "other"]).2
      = ["customer_a1", "other", "customer_a1_r1"] ∧
    (DdlApply.applyDDLToDatabase (fun _ : Nat => (.error "SyntaxError" : Except String Nat))
        7).2 = 7 := by
  have hfail := saga_failure_leaves_production_unchanged
    (⟨.ok (), .ok (), .ok (), .error "MigrationError", .ok ()⟩ : SagaEnv String)
    ["customer_a1"] "r1" ["customer_a1", "other"] (by decide)
  have hok := saga_failure_leaves_production_unchanged
    (⟨.ok (), .ok (), .ok (), .ok (), .ok ()⟩ : SagaEnv String)
    ["customer_a1"] "r1" ["customer_a1", "other"] (by decide)
  refine ⟨hfail.1 "MigrationError" rfl, ?_, hfail.2.2 Nat _ 7 "SyntaxError" rfl⟩
  rw [(hok.2.1 rfl).1]
  rfl

end Saga
